import Mathlib

/-!
Shallow embedding of the mzsh zsh-configuration manager.

The embedding covers three modules of the source tree:

* `src/interactiveMenu.ts` — the raw-keypress selector (`CustomListPrompt`)
  and the orchestration in `InteractiveMenu.showInteractiveMenu`.  Keypress
  events are modelled by their `name`/`ctrl`/`meta`/`shift` fields; one
  keypress is one step of a state machine whose states are "still listening
  at cursor index i", "resolved with a value" and "cancelled, process exited
  with a code".  Terminal I/O (rendering, raw-mode toggling) is display-only
  and carries no selection state, so it is not modelled.

* `src/openConfig.ts` — the open-strategy table and `openFileWithType`.
  The child process is modelled by the event the source observes on it:
  either the asynchronous spawn `error` event fires, or the child runs and
  the `exit` event fires with an exit code.  A JS promise settles at most
  once and the executor body runs synchronously, so in the
  `waitForExit = false` branch `resolve()` has already happened when a later
  `reject` from the `error` handler is attempted; the model records the
  first settlement as the promise outcome and keeps every callback message.

* `src/fileDiscovery.ts` — `FileDiscovery.discoverZshFiles`.  The
  filesystem is an abstract world giving the results of the `pathExists`,
  `readdir` and `stat` calls the source makes (each may fail with an I/O
  error, modelled by `Except String`).  JavaScript `Array.prototype.sort`
  is stable (ES2019), and a stable sort by a total preorder comparator is
  uniquely determined, so it is modelled by `List.insertionSort`, which is
  stable.  `localeCompare` is modelled as the lexicographic code-point
  order on names.
-/

namespace Mzsh

/-- A menu entry as built in interactiveMenu.ts: rendered label `name`,
underlying `value` (a file path or the quit sentinel) and a `short`
confirmation label. -/
structure Choice where
  name : String
  value : String
  short : String
deriving DecidableEq

/-- A readline keypress event: optional key name plus modifier flags
(the source's `KeypressEvent` interface; `meta` is called `metaKey` here). -/
structure KeypressEvent where
  name : Option String
  ctrl : Bool
  metaKey : Bool
  shift : Bool
deriving DecidableEq

/-- Result of one keypress step of `CustomListPrompt.run`: keep listening at
a cursor index, resolve the promise with a choice value, or cancel — the
cancel paths call `process.exit(0)`, so `cancelled` records that exit code. -/
inductive StepResult where
  | continueAt (cursorIndex : Int) : StepResult
  | resolved (value : String) : StepResult
  | cancelled (exitCode : Nat) : StepResult
deriving DecidableEq

/-- The navigation update of lines 108–114 of interactiveMenu.ts:
up/k clamps at 0 via `Math.max`, down/j clamps at `choices.length - 1` via
`Math.min`, any other key leaves the cursor unchanged.  The cursor is an
`Int` because `Math.min(this.choices.length - 1, ...)` can produce `-1`
when the choices list is empty. -/
def navUpdate (len : Int) (currentIndex : Int) (key : KeypressEvent) : Int :=
  if key.name = some "up" ∨ key.name = some "k" then
    max 0 (currentIndex - 1)
  else if key.name = some "down" ∨ key.name = some "j" then
    min (len - 1) (currentIndex + 1)
  else
    currentIndex

/-- JavaScript array indexing `this.choices[this.currentIndex]`: `undefined`
(here `none`) for a negative index or one past the end. -/
def jsGetChoice (choices : List Choice) (i : Int) : Option Choice :=
  if 0 ≤ i then choices.get? i.toNat else none

/-- One step of the `onKeypress` handler of `CustomListPrompt.run`
(interactiveMenu.ts lines 88–125), in source order: quit keys
(escape/backspace/q), then Ctrl+C, then the navigation update, then
enter/return, which resolves only when `this.choices[this.currentIndex]`
is defined. -/
def onKeypress (choices : List Choice) (currentIndex : Int) (key : KeypressEvent) :
    StepResult :=
  if key.name = some "escape" ∨ key.name = some "backspace" ∨ key.name = some "q" then
    StepResult.cancelled 0
  else if key.ctrl = true ∧ key.name = some "c" then
    StepResult.cancelled 0
  else
    let currentIndex := navUpdate (choices.length : Int) currentIndex key
    if key.name = some "return" ∨ key.name = some "enter" then
      match jsGetChoice choices currentIndex with
      | some selected => StepResult.resolved selected.value
      | none => StepResult.continueAt currentIndex
    else
      StepResult.continueAt currentIndex

/-- Feeding one keypress to the session: once a terminal state is reached the
listener has been removed by `cleanup` (or the process exited), so further
keys change nothing. -/
def sessionStep (choices : List Choice) (s : StepResult) (key : KeypressEvent) :
    StepResult :=
  match s with
  | StepResult.continueAt i => onKeypress choices i key
  | t => t

/-- A whole selector session: `CustomListPrompt.run` starts at
`currentIndex = 0` and consumes the given keypress sequence. -/
def runSession (choices : List Choice) (keys : List KeypressEvent) : StepResult :=
  keys.foldl (sessionStep choices) (StepResult.continueAt 0)

/-- The cursor reached from index 0 by a sequence of keys under the pure
navigation update alone. -/
def navCursor (choices : List Choice) (keys : List KeypressEvent) : Int :=
  keys.foldl (navUpdate (choices.length : Int)) 0

/-- Key classification: up-navigation keys of line 108. -/
def isUpKey (key : KeypressEvent) : Prop :=
  key.name = some "up" ∨ key.name = some "k"

/-- Key classification: down-navigation keys of line 111. -/
def isDownKey (key : KeypressEvent) : Prop :=
  key.name = some "down" ∨ key.name = some "j"

/-- A navigation key: up/k/down/j. -/
def isNavKey (key : KeypressEvent) : Prop :=
  isUpKey key ∨ isDownKey key

/-- A cancel key: escape, backspace, q (lines 92–97) or Ctrl+C (lines
100–105). -/
def isCancelKey (key : KeypressEvent) : Prop :=
  key.name = some "escape" ∨ key.name = some "backspace" ∨ key.name = some "q" ∨
    (key.ctrl = true ∧ key.name = some "c")

instance (k : KeypressEvent) : Decidable (isUpKey k) := by
  unfold isUpKey; infer_instance

instance (k : KeypressEvent) : Decidable (isDownKey k) := by
  unfold isDownKey; infer_instance

instance (k : KeypressEvent) : Decidable (isNavKey k) := by
  unfold isNavKey; infer_instance

instance (k : KeypressEvent) : Decidable (isCancelKey k) := by
  unfold isCancelKey; infer_instance

/-- Concrete keypress events used to exercise the model on closed inputs. -/
def upEvent : KeypressEvent := { name := some "up", ctrl := false, metaKey := false, shift := false }

def downEvent : KeypressEvent :=
  { name := some "down", ctrl := false, metaKey := false, shift := false }

def returnEvent : KeypressEvent :=
  { name := some "return", ctrl := false, metaKey := false, shift := false }

def escapeEvent : KeypressEvent :=
  { name := some "escape", ctrl := false, metaKey := false, shift := false }

def ctrlCEvent : KeypressEvent :=
  { name := some "c", ctrl := true, metaKey := false, shift := false }

def demoChoices : List Choice :=
  [{ name := "alpha", value := "/a", short := "a" },
   { name := "beta", value := "/b", short := "b" },
   { name := "gamma", value := "/c", short := "c" }]

example : runSession demoChoices [downEvent, downEvent, returnEvent] =
    StepResult.resolved "/c" := by decide

example : runSession demoChoices [downEvent, escapeEvent, returnEvent] =
    StepResult.cancelled 0 := by decide

example : runSession demoChoices [upEvent, returnEvent] =
    StepResult.resolved "/a" := by decide

/-- A discovered zsh configuration file (fileDiscovery.ts `ZshFile`):
display name, absolute path, and whether it is the main home-directory
`.zshrc`. -/
structure ZshFile where
  name : String
  path : String
  isZshrc : Bool
deriving DecidableEq

/-- Menu label of a file (`InteractiveMenu.formatFileNameForMenu`): the
arrow indicator followed by the file name.  The chalk colorization is
ANSI-escape display styling that does not change the text content and is
not modelled. -/
def formatFileNameForMenu (file : ZshFile) : String :=
  "→ " ++ file.name

/-- The sentinel value of the dedicated quit menu entry
(interactiveMenu.ts line 220). -/
def quitValue : String := "__quit__"

/-- The quit choice pushed last onto the menu (interactiveMenu.ts lines
218–222). -/
def quitChoice : Choice :=
  { name := "✕ Quit", value := quitValue, short := "Quit" }

/-- The choices handed to `CustomListPrompt` by `showInteractiveMenu`
(lines 211–222): one choice per file, then the quit choice appended last. -/
def buildChoices (files : List ZshFile) : List Choice :=
  (files.map fun file =>
    { name := formatFileNameForMenu file, value := file.path, short := file.name })
    ++ [quitChoice]

/-- Observable outcome of `showInteractiveMenu` once the selector session
has terminated: either the cancellation path ran (the yellow
"Operation cancelled." message, `process.exit` with the recorded code, no
file opened), or the selected path was handed to `openFile` and the process
then exited with code 0 (lines 243–255). -/
inductive MenuOutcome where
  | cancelled (exitCode : Nat) : MenuOutcome
  | openedFile (path : String) (exitCode : Nat) : MenuOutcome
deriving DecidableEq

/-- `InteractiveMenu.showInteractiveMenu` driven by a keypress sequence:
build the choices, run the selector, then branch on the result exactly as
lines 243–255 do.  `none` means the key sequence did not terminate the
session (the process would still be waiting for keys). -/
def showInteractiveMenu (files : List ZshFile) (keys : List KeypressEvent) :
    Option MenuOutcome :=
  match runSession (buildChoices files) keys with
  | StepResult.continueAt _ => none
  | StepResult.cancelled code => some (MenuOutcome.cancelled code)
  | StepResult.resolved selectedFile =>
      if selectedFile = quitValue then some (MenuOutcome.cancelled 0)
      else some (MenuOutcome.openedFile selectedFile 0)

/-!
Open-strategy table and process launcher (`src/openConfig.ts`).
-/

/-- The symbolic open types of openConfig.ts. -/
inductive OpenType where
  | default : OpenType
  | vim : OpenType
  | nano : OpenType
  | code : OpenType
  | subl : OpenType
deriving DecidableEq

/-- A resolved command and its argument list (`CommandResult`). -/
structure CommandResult where
  command : String
  args : List String
deriving DecidableEq

/-- `createDefaultCommand`: the platform-specific system opener.
`platform` stands for `process.platform`. -/
def createDefaultCommand (platform : String) (filePath : String) : CommandResult :=
  { command :=
      if platform = "darwin" then "open"
      else if platform = "win32" then "start"
      else "xdg-open",
    args := [filePath] }

/-- The `stdio` field of the spawn options. -/
inductive StdioMode where
  | inherit : StdioMode
  | ignore : StdioMode
deriving DecidableEq

/-- Spawn options of a strategy (`OpenConfig.options`). -/
structure SpawnOptions where
  detached : Bool
  stdio : StdioMode
  shell : Option Bool
deriving DecidableEq

/-- The `command` field of a strategy: either a literal command string, or
the one command-resolver function the source ever uses,
`createDefaultCommand` (tagged here so the table stays first-order). -/
inductive CommandSpec where
  | literal (cmd : String) : CommandSpec
  | defaultResolver : CommandSpec
deriving DecidableEq

/-- An open strategy (`OpenConfig`). -/
structure OpenConfig where
  name : String
  description : String
  command : CommandSpec
  options : SpawnOptions
  waitForExit : Bool
deriving DecidableEq

/-- The fixed strategy table `openConfigs` of openConfig.ts lines 29–82. -/
def openConfigs : OpenType → OpenConfig
  | OpenType.default =>
    { name := "Default Application",
      description := "Opens with system default application (separate window)",
      command := CommandSpec.defaultResolver,
      options := { detached := true, stdio := StdioMode.ignore, shell := none },
      waitForExit := false }
  | OpenType.vim =>
    { name := "Vim",
      description := "Opens in Vim editor (terminal-based)",
      command := CommandSpec.literal "vim",
      options := { detached := false, stdio := StdioMode.inherit, shell := some true },
      waitForExit := true }
  | OpenType.nano =>
    { name := "Nano",
      description := "Opens in Nano editor (terminal-based)",
      command := CommandSpec.literal "nano",
      options := { detached := false, stdio := StdioMode.inherit, shell := some true },
      waitForExit := true }
  | OpenType.code =>
    { name := "VS Code",
      description := "Opens in Visual Studio Code (separate window)",
      command := CommandSpec.literal "code",
      options := { detached := true, stdio := StdioMode.ignore, shell := none },
      waitForExit := false }
  | OpenType.subl =>
    { name := "Sublime Text",
      description := "Opens in Sublime Text (separate window)",
      command := CommandSpec.literal "subl",
      options := { detached := true, stdio := StdioMode.ignore, shell := none },
      waitForExit := false }

/-- `getOpenConfig`. -/
def getOpenConfig (t : OpenType) : OpenConfig := openConfigs t

/-- What the source observes on the spawned child: either the asynchronous
`error` event fires (the spawn failed, e.g. executable not found), or the
child was spawned and its `exit` event fires with an exit code. -/
inductive SpawnBehavior where
  | spawnErrorEvt (message : String) : SpawnBehavior
  | exitEvt (code : Int) : SpawnBehavior
deriving DecidableEq

/-- Observable result of one `openFileWithType` call: the settled promise
(a JS promise settles at most once, first settlement wins), the messages
passed to the `onSuccess` callback and the messages passed to the
`onError` callback, plus the command and arguments handed to `spawn`. -/
structure LaunchResult where
  promise : Except String Unit
  successMessages : List String
  errorMessages : List String
  spawnCommand : String
  spawnArgs : List String

/-- `openFileWithType` (openConfig.ts lines 96–156).  The executor body runs
synchronously: it resolves the command, spawns, registers the handlers and —
when `waitForExit` is false — calls `onSuccess` and `resolve()` immediately.
Event handlers run only afterwards, so in that branch a spawn `error` event
still invokes `onError` but its `reject` hits an already-resolved promise
and is a no-op.  When `waitForExit` is true the promise settles from the
`error` handler or from the `exit` handler (code 0 resolves, any other code
rejects with a message carrying the code). -/
def openFileWithType (filePath : String) (openType : OpenType) (platform : String)
    (behavior : SpawnBehavior) : LaunchResult :=
  let config := getOpenConfig openType
  let resolved :=
    match config.command with
    | CommandSpec.literal cmd => { command := cmd, args := [filePath] : CommandResult }
    | CommandSpec.defaultResolver => createDefaultCommand platform filePath
  if config.waitForExit then
    match behavior with
    | SpawnBehavior.spawnErrorEvt message =>
        let errorMsg := "Failed to open with " ++ config.name ++ ": " ++ message
        { promise := Except.error errorMsg,
          successMessages := [],
          errorMessages := [errorMsg],
          spawnCommand := resolved.command,
          spawnArgs := resolved.args }
    | SpawnBehavior.exitEvt code =>
        if code = 0 then
          { promise := Except.ok (),
            successMessages := ["File editing completed with " ++ config.name ++ "."],
            errorMessages := [],
            spawnCommand := resolved.command,
            spawnArgs := resolved.args }
        else
          let errorMsg := config.name ++ " exited with code " ++ toString code
          { promise := Except.error errorMsg,
            successMessages := [],
            errorMessages := [errorMsg],
            spawnCommand := resolved.command,
            spawnArgs := resolved.args }
  else
    let successMsg := "File opened with " ++ config.name ++ "."
    match behavior with
    | SpawnBehavior.spawnErrorEvt message =>
        let errorMsg := "Failed to open with " ++ config.name ++ ": " ++ message
        { promise := Except.ok (),
          successMessages := [successMsg],
          errorMessages := [errorMsg],
          spawnCommand := resolved.command,
          spawnArgs := resolved.args }
    | SpawnBehavior.exitEvt _ =>
        { promise := Except.ok (),
          successMessages := [successMsg],
          errorMessages := [],
          spawnCommand := resolved.command,
          spawnArgs := resolved.args }

example : (openFileWithType "/tmp/f" OpenType.vim "linux" (SpawnBehavior.exitEvt 2)).promise
    = Except.error "Vim exited with code 2" := rfl

example : (openFileWithType "/tmp/f" OpenType.code "linux" (SpawnBehavior.exitEvt 7)).promise
    = Except.ok () := rfl

example : (openFileWithType "/tmp/f" OpenType.default "darwin"
    (SpawnBehavior.exitEvt 0)).spawnCommand = "open" := rfl

/-!
File discovery (`src/fileDiscovery.ts`).
-/

/-- The part of an `fs.Stats` object the source inspects. -/
structure JsStat where
  isFile : Bool
deriving DecidableEq

/-- Abstract filesystem world: the answers to the exact filesystem calls
`discoverZshFiles` makes.  `fs-extra.pathExists` returns `false` for a
nonexistent path and only fails on I/O errors distinct from nonexistence;
each call may instead fail with an error message (`Except.error`). -/
structure FsWorld where
  homeDir : String
  zshrcPathExists : Except String Bool
  configZshDirExists : Except String Bool
  readdirConfigZsh : Except String (List String)
  statAt : String → Except String JsStat

/-- `path.join` for the two-segment joins the source performs. -/
def pathJoin (a b : String) : String := a ++ "/" ++ b

/-- Lexicographic less-or-equal on character lists by code point, the model
of `String.prototype.localeCompare`'s total order on names. -/
def charListLe : List Char → List Char → Bool
  | [], _ => true
  | _ :: _, [] => false
  | c :: cs, d :: ds =>
    if c.toNat < d.toNat then true
    else if d.toNat < c.toNat then false
    else charListLe cs ds

/-- Name comparison: `a.localeCompare(b) ≤ 0`, modelled as lexicographic
code-point order. -/
def strLe (a b : String) : Bool := charListLe a.data b.data

/-- The comparator of fileDiscovery.ts lines 121–128, as a Boolean
less-or-equal: `comparator a b ≤ 0`.  The main `.zshrc` sorts before
everything else; files of the same kind compare by `localeCompare` on the
name. -/
def fileLe (a b : ZshFile) : Bool :=
  (a.isZshrc && !b.isZshrc) || ((a.isZshrc == b.isZshrc) && strLe a.name b.name)

/-- The comparator as a relation, for `List.insertionSort`. -/
def fileRel (a b : ZshFile) : Prop := fileLe a b = true

instance : DecidableRel fileRel := fun a b =>
  inferInstanceAs (Decidable (fileLe a b = true))

/-- Discovery phases 1 and 2 of `discoverZshFiles` (lines 85–116): the main
`.zshrc` if it exists, then every regular file of `~/.config/zsh`, in
`readdir` order, before sorting. -/
def gatherZshFiles (w : FsWorld) : Except String (List ZshFile) := do
  let homeDir := w.homeDir
  let zshrcPath := pathJoin homeDir ".zshrc"
  let zshrcThere ← w.zshrcPathExists
  let files :=
    if zshrcThere then
      [{ name := ".zshrc", path := zshrcPath, isZshrc := true }]
    else []
  let configZshDir := pathJoin (pathJoin homeDir ".config") "zsh"
  let dirThere ← w.configZshDirExists
  if dirThere then
    let configFiles ← w.readdirConfigZsh
    configFiles.foldlM
      (fun acc file => do
        let filePath := pathJoin configZshDir file
        let stat ← w.statAt filePath
        if stat.isFile then
          pure (acc ++ [{ name := file, path := filePath, isZshrc := false }])
        else
          pure acc)
      files
  else
    pure files

/-- `FileDiscovery.discoverZshFiles`: gather, then the sorting phase of
lines 121–128.  `Array.prototype.sort` is a stable sort by the comparator
(ES2019), and a stable sort by a total preorder is uniquely determined,
so it is modelled by the stable `List.insertionSort`. -/
def discoverZshFiles (w : FsWorld) : Except String (List ZshFile) := do
  let files ← gatherZshFiles w
  pure (List.insertionSort fileRel files)

/-- The filesystem world of the enumerator round-trip scenario: the primary
file exists and `~/.config/zsh` holds regular files named b.zsh, a.zsh,
c.zsh (in that readdir order). -/
def exampleWorld : FsWorld :=
  { homeDir := "/home/u",
    zshrcPathExists := Except.ok true,
    configZshDirExists := Except.ok true,
    readdirConfigZsh := Except.ok ["b.zsh", "a.zsh", "c.zsh"],
    statAt := fun _ => Except.ok { isFile := true } }

def examplePrimary : ZshFile :=
  { name := ".zshrc", path := "/home/u/.zshrc", isZshrc := true }

def exampleFileA : ZshFile :=
  { name := "a.zsh", path := "/home/u/.config/zsh/a.zsh", isZshrc := false }

def exampleFileB : ZshFile :=
  { name := "b.zsh", path := "/home/u/.config/zsh/b.zsh", isZshrc := false }

def exampleFileC : ZshFile :=
  { name := "c.zsh", path := "/home/u/.config/zsh/c.zsh", isZshrc := false }

example : gatherZshFiles exampleWorld =
    Except.ok [examplePrimary, exampleFileB, exampleFileA, exampleFileC] := rfl

example : discoverZshFiles exampleWorld =
    Except.ok [examplePrimary, exampleFileA, exampleFileB, exampleFileC] := rfl

/-!
Lemmas about the comparator of the file sort.
-/

/-- Unfolding of the lexicographic comparison on a cons pair. -/
theorem charListLe_cons_iff (c d : Char) (cs ds : List Char) :
    charListLe (c :: cs) (d :: ds) = true ↔
      c.toNat < d.toNat ∨ (c.toNat = d.toNat ∧ charListLe cs ds = true) := by
  simp only [charListLe]
  by_cases h1 : c.toNat < d.toNat
  · simp [h1]
  · by_cases h2 : d.toNat < c.toNat
    · simp [h1, h2]
      omega
    · have he : c.toNat = d.toNat := by omega
      simp [h1, h2, he]

/-- The lexicographic comparison is total. -/
theorem charListLe_total (xs : List Char) : ∀ ys,
    charListLe xs ys = true ∨ charListLe ys xs = true := by
  induction xs with
  | nil => intro ys; left; rfl
  | cons c cs ih =>
      intro ys
      cases ys with
      | nil => right; rfl
      | cons d ds =>
          rw [charListLe_cons_iff, charListLe_cons_iff]
          rcases Nat.lt_trichotomy c.toNat d.toNat with h | h | h
          · left; left; exact h
          · rcases ih ds with hr | hr
            · left; right; exact ⟨h, hr⟩
            · right; right; exact ⟨h.symm, hr⟩
          · right; left; exact h

/-- The lexicographic comparison is transitive. -/
theorem charListLe_trans (xs : List Char) : ∀ ys zs,
    charListLe xs ys = true → charListLe ys zs = true → charListLe xs zs = true := by
  induction xs with
  | nil => intro ys zs _ _; rfl
  | cons c cs ih =>
      intro ys zs hxy hyz
      cases ys with
      | nil => simp [charListLe] at hxy
      | cons d ds =>
          cases zs with
          | nil => simp [charListLe] at hyz
          | cons e es =>
              rw [charListLe_cons_iff] at hxy hyz ⊢
              rcases hxy with h1 | ⟨h1, hr1⟩
              · rcases hyz with h2 | ⟨h2, _⟩
                · left; omega
                · left; omega
              · rcases hyz with h2 | ⟨h2, hr2⟩
                · left; omega
                · right; exact ⟨by omega, ih ds es hr1 hr2⟩

instance : IsTotal ZshFile fileRel := by
  constructor
  intro a b
  unfold fileRel fileLe strLe
  cases ha : a.isZshrc <;> cases hb : b.isZshrc <;> simp [ha, hb] <;>
    exact charListLe_total a.name.data b.name.data

instance : IsTrans ZshFile fileRel := by
  constructor
  intro a b c hab hbc
  unfold fileRel fileLe strLe at hab hbc ⊢
  cases ha : a.isZshrc <;> cases hb : b.isZshrc <;> cases hc : c.isZshrc <;>
    simp_all <;> exact charListLe_trans a.name.data b.name.data c.name.data hab hbc

/-!
Lemmas about the selector state machine.
-/

/-- The navigation update keeps the cursor inside `[0, len)` whenever the
choices list is nonempty. -/
theorem navUpdate_bounds (len i : Int) (k : KeypressEvent) (hlen : 1 ≤ len)
    (h0 : 0 ≤ i) (h1 : i < len) :
    0 ≤ navUpdate len i k ∧ navUpdate len i k < len := by
  unfold navUpdate
  split
  · omega
  · split
    · omega
    · omega

/-- On a navigation key, one keypress step just applies the navigation
update and keeps listening. -/
theorem onKeypress_nav (choices : List Choice) (i : Int) (k : KeypressEvent)
    (hk : isNavKey k) :
    onKeypress choices i k
      = StepResult.continueAt (navUpdate (choices.length : Int) i k) := by
  rcases hk with (h | h) | (h | h) <;> simp [onKeypress, h]

/-- Folding navigation keys from an active state stays active and tracks the
pure navigation fold. -/
theorem foldl_sessionStep_nav (choices : List Choice) (keys : List KeypressEvent)
    (hk : ∀ k ∈ keys, isNavKey k) (i : Int) :
    keys.foldl (sessionStep choices) (StepResult.continueAt i)
      = StepResult.continueAt (keys.foldl (navUpdate (choices.length : Int)) i) := by
  induction keys generalizing i with
  | nil => rfl
  | cons k ks ih =>
      have hk1 : isNavKey k := hk k (by simp)
      have hks : ∀ x ∈ ks, isNavKey x := fun x hx => hk x (by simp [hx])
      simp only [List.foldl_cons, sessionStep, onKeypress_nav choices i k hk1]
      exact ih hks _

/-- The pure navigation fold stays inside `[0, len)`. -/
theorem foldl_navUpdate_bounds (len : Int) (keys : List KeypressEvent) (hlen : 1 ≤ len)
    (i : Int) (h0 : 0 ≤ i) (h1 : i < len) :
    0 ≤ keys.foldl (navUpdate len) i ∧ keys.foldl (navUpdate len) i < len := by
  induction keys generalizing i with
  | nil => exact ⟨h0, h1⟩
  | cons k ks ih =>
      have hb := navUpdate_bounds len i k hlen h0 h1
      simpa using ih (navUpdate len i k) hb.1 hb.2

/-- C1: for every nonempty choices list and every finite sequence of
navigation keys (up/k/down/j) followed by Enter, the selector resolves with
the `value` of the choice at the cursor index reached by applying the
navigation sequence from initial index 0. -/
theorem selector_resolves_value_at_nav_cursor (choices : List Choice)
    (hne : choices ≠ []) (keys : List KeypressEvent)
    (hnav : ∀ k ∈ keys, isNavKey k) :
    ∃ c, jsGetChoice choices (navCursor choices keys) = some c ∧
      runSession choices (keys ++ [returnEvent]) = StepResult.resolved c.value := by
  have hpos : 0 < choices.length := List.length_pos.mpr hne
  have hlen : 1 ≤ (choices.length : Int) := by omega
  have hb := foldl_navUpdate_bounds (choices.length : Int) keys hlen 0 le_rfl hlen
  set m : Int := keys.foldl (navUpdate (choices.length : Int)) 0 with hm
  have hmn : m.toNat < choices.length := by omega
  have hget : jsGetChoice choices m = some (choices.get ⟨m.toNat, hmn⟩) := by
    simp [jsGetChoice, hb.1, List.get?_eq_get hmn]
  refine ⟨choices.get ⟨m.toNat, hmn⟩, hget, ?_⟩
  have hrun : runSession choices keys = StepResult.continueAt m := by
    simpa [runSession, hm] using foldl_sessionStep_nav choices keys hnav 0
  have happ : runSession choices (keys ++ [returnEvent])
      = sessionStep choices (runSession choices keys) returnEvent := by
    simp [runSession, List.foldl_append]
  rw [happ, hrun]
  have hname : returnEvent.name = some "return" := rfl
  have hctrl : returnEvent.ctrl = false := rfl
  have hnavret : navUpdate (choices.length : Int) m returnEvent = m := by
    simp [navUpdate, hname]
  simp [sessionStep, onKeypress, hname, hctrl, hnavret, hget]

/-- Closed witness for the C1 theorem: two down-keys on a three-entry menu
land on the third entry and Enter resolves with its value. -/
theorem selector_resolves_value_at_nav_cursor_witness :
    ∃ c, jsGetChoice demoChoices (navCursor demoChoices [downEvent, downEvent]) = some c ∧
      runSession demoChoices ([downEvent, downEvent] ++ [returnEvent])
        = StepResult.resolved c.value :=
  selector_resolves_value_at_nav_cursor demoChoices (by decide)
    [downEvent, downEvent] (by decide)

/-- C2: navigation never wraps around on a nonempty choices list: up/k at
cursor 0 stays at 0 and down/j at the last index stays at the last index,
while every other navigation step moves the cursor by exactly one. -/
theorem nav_step_no_wraparound (choices : List Choice) (i : Int) (k : KeypressEvent)
    (hne : choices ≠ []) (h0 : 0 ≤ i) (h1 : i < (choices.length : Int))
    (hk : isNavKey k) :
    onKeypress choices i k = StepResult.continueAt (navUpdate (choices.length : Int) i k)
    ∧ (isUpKey k →
        (i = 0 → navUpdate (choices.length : Int) i k = 0)
        ∧ (0 < i → navUpdate (choices.length : Int) i k = i - 1))
    ∧ (isDownKey k →
        (i = (choices.length : Int) - 1 → navUpdate (choices.length : Int) i k = i)
        ∧ (i < (choices.length : Int) - 1 →
            navUpdate (choices.length : Int) i k = i + 1)) := by
  refine ⟨onKeypress_nav choices i k hk, ?_, ?_⟩
  · rintro (h | h) <;> simp [navUpdate, h] <;> omega
  · rintro (h | h) <;> simp [navUpdate, h] <;> omega

/-- Closed witness for the C2 theorem: a down-key at the last index of the
three-entry demo menu. -/
theorem nav_step_no_wraparound_witness :
    onKeypress demoChoices 2 downEvent
      = StepResult.continueAt (navUpdate (demoChoices.length : Int) 2 downEvent)
    ∧ (isUpKey downEvent →
        ((2 : Int) = 0 → navUpdate (demoChoices.length : Int) 2 downEvent = 0)
        ∧ ((0 : Int) < 2 → navUpdate (demoChoices.length : Int) 2 downEvent = 2 - 1))
    ∧ (isDownKey downEvent →
        ((2 : Int) = (demoChoices.length : Int) - 1 →
          navUpdate (demoChoices.length : Int) 2 downEvent = 2)
        ∧ ((2 : Int) < (demoChoices.length : Int) - 1 →
            navUpdate (demoChoices.length : Int) 2 downEvent = 2 + 1)) :=
  nav_step_no_wraparound demoChoices 2 downEvent (by decide) (by decide) (by decide)
    (by decide)

/-- A cancelled session stays cancelled: the keypress listener was removed
and the process exited, so no further key changes the outcome. -/
theorem foldl_sessionStep_cancelled (choices : List Choice) (keys : List KeypressEvent)
    (c : Nat) :
    keys.foldl (sessionStep choices) (StepResult.cancelled c) = StepResult.cancelled c := by
  induction keys with
  | nil => rfl
  | cons k ks ih => simpa [sessionStep] using ih

/-- C3: a cancel key (Escape, Backspace, q, or Ctrl+C) at any cursor
position always produces the Cancelled outcome with exit code 0, never a
Resolved outcome, and the session is terminated: no later key can change
the result. -/
theorem cancel_key_cancels_with_exit_zero (choices : List Choice) (i : Int)
    (k : KeypressEvent) (hk : isCancelKey k) :
    onKeypress choices i k = StepResult.cancelled 0
    ∧ (∀ v, onKeypress choices i k ≠ StepResult.resolved v)
    ∧ ∀ keys : List KeypressEvent,
        keys.foldl (sessionStep choices) (onKeypress choices i k)
          = StepResult.cancelled 0 := by
  have h : onKeypress choices i k = StepResult.cancelled 0 := by
    rcases hk with h | h | h | ⟨hc, h⟩
    · simp [onKeypress, h]
    · simp [onKeypress, h]
    · simp [onKeypress, h]
    · simp [onKeypress, h, hc]
  refine ⟨h, fun v hv => ?_, fun keys => ?_⟩
  · rw [h] at hv
    exact StepResult.noConfusion hv
  · rw [h]
    exact foldl_sessionStep_cancelled choices keys 0

/-- Closed witness for the C3 theorem: Ctrl+C at cursor 1 of the demo
menu. -/
theorem cancel_key_cancels_with_exit_zero_witness :
    onKeypress demoChoices 1 ctrlCEvent = StepResult.cancelled 0
    ∧ (∀ v, onKeypress demoChoices 1 ctrlCEvent ≠ StepResult.resolved v)
    ∧ ∀ keys : List KeypressEvent,
        keys.foldl (sessionStep demoChoices) (onKeypress demoChoices 1 ctrlCEvent)
          = StepResult.cancelled 0 :=
  cancel_key_cancels_with_exit_zero demoChoices 1 ctrlCEvent (by decide)

/-- Whenever a keypress step keeps listening, the new cursor is exactly the
navigation update of the old one. -/
theorem onKeypress_continueAt_navUpdate (choices : List Choice) (i j : Int)
    (k : KeypressEvent) (h : onKeypress choices i k = StepResult.continueAt j) :
    j = navUpdate (choices.length : Int) i k := by
  by_cases hc1 : k.name = some "escape" ∨ k.name = some "backspace" ∨ k.name = some "q"
  · simp [onKeypress, hc1] at h
  · by_cases hc2 : k.ctrl = true ∧ k.name = some "c"
    · simp [onKeypress, hc1, hc2] at h
    · by_cases he : k.name = some "return" ∨ k.name = some "enter"
      · cases hg : jsGetChoice choices (navUpdate (choices.length : Int) i k) with
        | some c => simp [onKeypress, hc1, hc2, he, hg] at h
        | none =>
            simp [onKeypress, hc1, hc2, he, hg] at h
            exact h.symm
      · simp [onKeypress, hc1, hc2, he] at h
        exact h.symm

/-- Every still-listening state reachable by folding keys from an in-bounds
state is in bounds. -/
theorem foldl_sessionStep_bounds (choices : List Choice)
    (hlen : 1 ≤ (choices.length : Int)) (keys : List KeypressEvent) :
    ∀ s : StepResult,
      (∀ t : Int, s = StepResult.continueAt t → 0 ≤ t ∧ t < (choices.length : Int)) →
      ∀ i : Int, keys.foldl (sessionStep choices) s = StepResult.continueAt i →
        0 ≤ i ∧ i < (choices.length : Int) := by
  induction keys with
  | nil =>
      intro s hs i h
      exact hs i h
  | cons k ks ih =>
      intro s hs i h
      simp only [List.foldl_cons] at h
      refine ih (sessionStep choices s k) ?_ i h
      intro t ht
      cases s with
      | continueAt u =>
          have hu := hs u rfl
          have hnav := onKeypress_continueAt_navUpdate choices u t k
            (by simpa [sessionStep] using ht)
          rw [hnav]
          exact navUpdate_bounds (choices.length : Int) u k hlen hu.1 hu.2
      | resolved v => simp [sessionStep] at ht
      | cancelled c => simp [sessionStep] at ht

/-- C4: throughout any selector session on a nonempty choices list the
cursor stays inside `[0, choices.length - 1]` after every keypress
transition, so it always indexes a valid choice; and the quit choice is the
last element of the choices list `showInteractiveMenu` hands to the
selector. -/
theorem cursor_always_valid_and_quit_last :
    (∀ choices : List Choice, choices ≠ [] →
      ∀ (keys : List KeypressEvent) (i : Int),
        runSession choices keys = StepResult.continueAt i →
        0 ≤ i ∧ i < (choices.length : Int))
    ∧ ∀ files : List ZshFile, (buildChoices files).getLast? = some quitChoice := by
  constructor
  · intro choices hne keys i h
    have hpos : 0 < choices.length := List.length_pos.mpr hne
    have hlen : 1 ≤ (choices.length : Int) := by omega
    refine foldl_sessionStep_bounds choices hlen keys (StepResult.continueAt 0) ?_ i h
    intro t ht
    injection ht with ht
    omega
  · intro files
    simp [buildChoices]

/-- Closed witness for the C4 theorem: the empty key sequence on the demo
menu leaves the cursor at 0, in bounds, and the quit choice closes the menu
built from no files. -/
theorem cursor_always_valid_and_quit_last_witness :
    ((0 : Int) ≤ 0 ∧ (0 : Int) < (demoChoices.length : Int))
    ∧ (buildChoices []).getLast? = some quitChoice :=
  ⟨cursor_always_valid_and_quit_last.1 demoChoices (by decide) [] 0 rfl,
   cursor_always_valid_and_quit_last.2 []⟩

/-- C5: confirming the dedicated quit choice with Enter produces the same
downstream outcome as pressing a dedicated cancel key: both end in the
`MenuOutcome.cancelled 0` outcome (exit code 0 after the "operation
cancelled" message), which opens no file. -/
theorem quit_choice_enter_equiv_cancel_key (files : List ZshFile)
    (keys₁ keys₂ : List KeypressEvent)
    (h₁ : runSession (buildChoices files) keys₁ = StepResult.resolved quitValue)
    (h₂ : runSession (buildChoices files) keys₂ = StepResult.cancelled 0) :
    showInteractiveMenu files keys₁ = some (MenuOutcome.cancelled 0)
    ∧ showInteractiveMenu files keys₁ = showInteractiveMenu files keys₂ := by
  have e₁ : showInteractiveMenu files keys₁ = some (MenuOutcome.cancelled 0) := by
    simp [showInteractiveMenu, h₁]
  have e₂ : showInteractiveMenu files keys₂ = some (MenuOutcome.cancelled 0) := by
    simp [showInteractiveMenu, h₂]
  exact ⟨e₁, e₁.trans e₂.symm⟩

/-- Closed witness for the C5 theorem: with no files the only menu entry is
the quit choice; Enter on it and a bare Escape produce the same cancelled
outcome. -/
theorem quit_choice_enter_equiv_cancel_key_witness :
    showInteractiveMenu [] [returnEvent] = some (MenuOutcome.cancelled 0)
    ∧ showInteractiveMenu [] [returnEvent] = showInteractiveMenu [] [escapeEvent] :=
  quit_choice_enter_equiv_cancel_key [] [returnEvent] [escapeEvent]
    (by decide) (by decide)

/-!
Launcher theorems.
-/

/-- C6: with a `waitForExit = true` strategy the launcher waits for the
child's exit event and then succeeds exactly when the exit status is 0; a
nonzero status rejects with a failure message carrying the exit code. -/
theorem waitForExit_true_outcome (filePath : String) (t : OpenType) (platform : String)
    (code : Int) (hw : (getOpenConfig t).waitForExit = true) :
    ((openFileWithType filePath t platform (SpawnBehavior.exitEvt code)).promise
        = Except.ok () ↔ code = 0)
    ∧ (code ≠ 0 →
        (openFileWithType filePath t platform (SpawnBehavior.exitEvt code)).promise
          = Except.error ((getOpenConfig t).name ++ " exited with code " ++ toString code)) := by
  by_cases h0 : code = 0 <;>
    cases t <;> simp_all [openFileWithType, getOpenConfig, openConfigs]

/-- Closed witness for the C6 theorem: Vim exiting with code 2 rejects with
the message carrying the code. -/
theorem waitForExit_true_outcome_witness :
    ((openFileWithType "/tmp/f" OpenType.vim "linux" (SpawnBehavior.exitEvt 2)).promise
        = Except.ok () ↔ (2 : Int) = 0)
    ∧ ((2 : Int) ≠ 0 →
        (openFileWithType "/tmp/f" OpenType.vim "linux" (SpawnBehavior.exitEvt 2)).promise
          = Except.error ((getOpenConfig OpenType.vim).name ++ " exited with code "
              ++ toString (2 : Int))) :=
  waitForExit_true_outcome "/tmp/f" OpenType.vim "linux" 2 (by decide)

/-- C7: with a `waitForExit = false` strategy a successful spawn resolves
the promise with success immediately, independent of the child's eventual
exit code, and the error callback is never invoked. -/
theorem waitForExit_false_success (filePath : String) (t : OpenType) (platform : String)
    (code : Int) (hw : (getOpenConfig t).waitForExit = false) :
    (openFileWithType filePath t platform (SpawnBehavior.exitEvt code)).promise
      = Except.ok ()
    ∧ (openFileWithType filePath t platform (SpawnBehavior.exitEvt code)).errorMessages = []
    ∧ (openFileWithType filePath t platform (SpawnBehavior.exitEvt code)).successMessages
        = ["File opened with " ++ (getOpenConfig t).name ++ "."] := by
  cases t <;> simp_all [openFileWithType, getOpenConfig, openConfigs]

/-- Closed witness for the C7 theorem: VS Code exiting with code 7 still
yields a resolved promise and no error callback. -/
theorem waitForExit_false_success_witness :
    (openFileWithType "/tmp/f" OpenType.code "linux" (SpawnBehavior.exitEvt 7)).promise
      = Except.ok ()
    ∧ (openFileWithType "/tmp/f" OpenType.code "linux" (SpawnBehavior.exitEvt 7)).errorMessages
        = []
    ∧ (openFileWithType "/tmp/f" OpenType.code "linux"
          (SpawnBehavior.exitEvt 7)).successMessages
        = ["File opened with " ++ (getOpenConfig OpenType.code).name ++ "."] :=
  waitForExit_false_success "/tmp/f" OpenType.code "linux" 7 rfl

/-- C8: with a `waitForExit = false` strategy the returned promise never
rejects: even when the spawn fails, `resolve()` already ran synchronously
before the asynchronous error event, so the failure reaches only the
`onError` callback; for every observable child behaviour the promise is
resolved. -/
theorem waitForExit_false_never_rejects (filePath : String) (t : OpenType)
    (platform : String) (message : String)
    (hw : (getOpenConfig t).waitForExit = false) :
    (openFileWithType filePath t platform (SpawnBehavior.spawnErrorEvt message)).promise
      = Except.ok ()
    ∧ (openFileWithType filePath t platform
          (SpawnBehavior.spawnErrorEvt message)).errorMessages
        = ["Failed to open with " ++ (getOpenConfig t).name ++ ": " ++ message]
    ∧ ∀ b : SpawnBehavior,
        (openFileWithType filePath t platform b).promise = Except.ok () := by
  have hall : ∀ b : SpawnBehavior,
      (openFileWithType filePath t platform b).promise = Except.ok () := by
    intro b
    cases t <;> cases b <;> simp_all [openFileWithType, getOpenConfig, openConfigs]
  refine ⟨hall _, ?_, hall⟩
  cases t <;> simp_all [openFileWithType, getOpenConfig, openConfigs]

/-- Closed witness for the C8 theorem: a failed `subl` spawn (executable
not found) still yields a resolved promise, with the failure visible only
in the error callback. -/

theorem waitForExit_false_never_rejects_witness :
    (openFileWithType "/tmp/f" OpenType.subl "linux"
        (SpawnBehavior.spawnErrorEvt "spawn subl ENOENT")).promise = Except.ok ()
    ∧ (openFileWithType "/tmp/f" OpenType.subl "linux"
          (SpawnBehavior.spawnErrorEvt "spawn subl ENOENT")).errorMessages
        = ["Failed to open with " ++ (getOpenConfig OpenType.subl).name ++ ": "
            ++ "spawn subl ENOENT"]
    ∧ ∀ b : SpawnBehavior,
        (openFileWithType "/tmp/f" OpenType.subl "linux" b).promise = Except.ok () :=
  waitForExit_false_never_rejects "/tmp/f" OpenType.subl "linux" "spawn subl ENOENT" rfl


/-!
File-discovery theorems.
-/

/-- C9: the enumerator's result is ordered by the comparator — the primary
`.zshrc` first when present, the remaining files ascending by name — and is
a permutation of the gathered files; in particular, with a primary file and
secondary files read in the order b.zsh, a.zsh, c.zsh, `discoverZshFiles`
returns `[primary, a.zsh, b.zsh, c.zsh]`. -/
theorem discover_primary_first_sorted_by_name :
    (∀ (w : FsWorld) (files : List ZshFile),
      discoverZshFiles w = Except.ok files →
        files.Sorted fileRel
        ∧ ∃ g, gatherZshFiles w = Except.ok g ∧ files.Perm g)
    ∧ discoverZshFiles exampleWorld
        = Except.ok [examplePrimary, exampleFileA, exampleFileB, exampleFileC] := by
  constructor
  · intro w files h
    unfold discoverZshFiles at h
    cases hg : gatherZshFiles w with
    | error e =>
        rw [hg] at h
        exact Except.noConfusion h
    | ok g =>
        rw [hg] at h
        have hf : files = List.insertionSort fileRel g := by
          have : Except.ok (List.insertionSort fileRel g) = Except.ok files := h
          injection this with this
          exact this.symm
        subst hf
        exact ⟨List.sorted_insertionSort fileRel g, g, rfl,
          List.perm_insertionSort fileRel g⟩
  · rfl

/-- Closed witness for the C9 theorem: the general part applied to the
example world, whose result is computed by the second part. -/
theorem discover_primary_first_sorted_by_name_witness :
    ([examplePrimary, exampleFileA, exampleFileB, exampleFileC] :
        List ZshFile).Sorted fileRel
    ∧ ∃ g, gatherZshFiles exampleWorld = Except.ok g
        ∧ ([examplePrimary, exampleFileA, exampleFileB, exampleFileC] :
            List ZshFile).Perm g :=
  discover_primary_first_sorted_by_name.1 exampleWorld
    [examplePrimary, exampleFileA, exampleFileB, exampleFileC]
    discover_primary_first_sorted_by_name.2

/-- C10: when neither the home-directory `.zshrc` nor `~/.config/zsh`
exists, discovery returns the empty list and no error: nonexistence of
either location is never a filesystem error. -/
theorem discover_nonexistence_is_empty_not_error (w : FsWorld)
    (h1 : w.zshrcPathExists = Except.ok false)
    (h2 : w.configZshDirExists = Except.ok false) :
    discoverZshFiles w = Except.ok [] := by
  have hg : gatherZshFiles w = Except.ok [] := by
    unfold gatherZshFiles
    rw [h1, h2]
    rfl
  unfold discoverZshFiles
  rw [hg]
  rfl

/-- The filesystem world with neither location present. -/
def emptyWorld : FsWorld :=
  { homeDir := "/home/u",
    zshrcPathExists := Except.ok false,
    configZshDirExists := Except.ok false,
    readdirConfigZsh := Except.ok [],
    statAt := fun _ => Except.ok { isFile := true } }

/-- Closed witness for the C10 theorem: the empty world discovers nothing
and raises no error. -/
theorem discover_nonexistence_is_empty_not_error_witness :
    discoverZshFiles emptyWorld = Except.ok [] :=
  discover_nonexistence_is_empty_not_error emptyWorld rfl rfl

end Mzsh
